import Mathlib

/-!
Shallow embedding of the moderation / ticket / settings / companion-API logic
of the `pyc_coglib` Discord bot repository, together with theorems settling
the specification claims about it.

Conventions used throughout:
* Python dicts with string keys become association lists `List (String × JValue)`
  (insertion order preserved, assignment replaces in place, as in CPython).
* Python ints are `Nat`/`Int`; Python `//` and `%` on non-negative ints
  coincide with `Nat.div`/`Nat.mod`.
* External Discord API calls (send, delete, timeout, …) are modelled as
  succeeding; the embedding records which effects each handler requests.
* Exceptions become explicit `Except`/constructor outcomes.
-/

/-! ## Settings store (`src/settings.py`) -/

/-- JSON-like values stored in the settings document. -/
inductive JValue where
  | obj : List (String × JValue) → JValue
  | int : Int → JValue
  | str : String → JValue
  | bool : Bool → JValue
  | null : JValue

/-- Errors raised by `Settings.get_or_create` (`raise ValueError` when an
intermediate path segment holds a non-mapping value, `raise KeyError` when the
path is absent and no default was provided). -/
inductive SettingsErr where
  | valueError
  | keyError
deriving DecidableEq

/-- Membership / read of a key in a Python dict (`seg in d` / `d[seg]`). -/
def dictGet : List (String × JValue) → String → Option JValue
  | [], _ => none
  | (k, v) :: rest, key => if k == key then some v else dictGet rest key

/-- Assignment `d[key] = v` on a Python dict: replaces the value in place if
the key exists, otherwise appends (CPython preserves insertion order). -/
def dictPut : List (String × JValue) → String → JValue → List (String × JValue)
  | [], key, v => [(key, v)]
  | (k, w) :: rest, key, v =>
    if k == key then (k, v) :: rest else (k, w) :: dictPut rest key v

/-- Core recursion of `Settings.get_or_create` over the already-split path.
Mirrors the Python loop: walk `path_list[:-1]` creating missing intermediate
dicts (ValueError when a present intermediate is not a dict), then at the last
segment insert the default when the key is absent (KeyError when `default` is
the sentinel, i.e. `none` here).  Returns `(resolved value, post settings,
updated_settings)`; the Python method calls `save()` exactly when
`updated_settings` is true.  The `[]` case is unreachable because
`str.split` never returns an empty list. -/
def get_or_create_path : List String → List (String × JValue) → Option JValue →
    Except SettingsErr (JValue × List (String × JValue) × Bool)
  | [], _, _ => .error .keyError
  | [last], o, default =>
    match dictGet o last with
    | some v => .ok (v, o, false)
    | none =>
      match default with
      | none => .error .keyError
      | some d => .ok (d, dictPut o last d, true)
  | seg :: rest₁ :: rest₂, o, default =>
    match dictGet o seg with
    | none =>
      match get_or_create_path (rest₁ :: rest₂) [] default with
      | .error e => .error e
      | .ok (v, sub, _) => .ok (v, dictPut o seg (.obj sub), true)
    | some (.obj sub) =>
      match get_or_create_path (rest₁ :: rest₂) sub default with
      | .error e => .error e
      | .ok (v, sub', upd) => .ok (v, dictPut o seg (.obj sub'), upd)
    | some _ => .error .valueError

/-- Python `str.split(sep)` for a single-character separator: split at every
occurrence of `sep`, keeping empty components; the result is always
non-empty (`"".split(".") == [""]`). -/
def pySplit (sep : Char) : List Char → List (List Char)
  | [] => [[]]
  | c :: rest =>
    match pySplit sep rest with
    | [] => [[]]
    | cur :: parts =>
      if c == sep then [] :: cur :: parts else (c :: cur) :: parts

/-- `Settings.get_or_create(path, default)`: split the dot-separated path
(`path.split(".")`) and run the traversal.  `default = none` models the
`_sentinel` (no default provided). -/
def get_or_create (settings : List (String × JValue)) (path : String)
    (default : Option JValue) :
    Except SettingsErr (JValue × List (String × JValue) × Bool) :=
  get_or_create_path ((pySplit '.' path.toList).map String.mk) settings default

/-- The nested document `{a: {b: {c: 5}}}` produced by the first
`get_or_create("a.b.c", 5)` on an empty store. -/
def abcStore : List (String × JValue) :=
  [("a", .obj [("b", .obj [("c", .int 5)])])]

/-! ## Warning ledger and the warn command (`src/cogs/moderation.py`) -/

/-- Row of the `warns` table (`id INTEGER PRIMARY KEY AUTOINCREMENT, user_id
INTEGER, reason TEXT`). -/
structure WarnRow where
  id : Nat
  user_id : Nat
  reason : String
deriving DecidableEq

/-- The warns table plus the next AUTOINCREMENT id (sqlite never reuses an
id once assigned). -/
structure WarnDb where
  rows : List WarnRow
  nextId : Nat
deriving DecidableEq

/-- `INSERT INTO warns (user_id, reason) VALUES (?, ?)`. -/
def insertWarn (db : WarnDb) (uid : Nat) (reason : String) : WarnDb :=
  { rows := db.rows ++ [{ id := db.nextId, user_id := uid, reason := reason }],
    nextId := db.nextId + 1 }

/-- `SELECT * FROM warns WHERE user_id = ?`. -/
def selectWarnsByUser (db : WarnDb) (uid : Nat) : List WarnRow :=
  db.rows.filter (fun r => r.user_id == uid)

/-- The aspects of the warned member the `warn` command inspects:
`user.bot`, `user.id`, `user.guild_permissions.administrator`. -/
structure WarnTarget where
  id : Nat
  bot : Bool
  administrator : Bool
deriving DecidableEq

/-- Visible outcome of the `warn` command: one of the three ephemeral
rejection replies, or a successful warn together with the timeout duration
in minutes when the escalation branch fired. -/
inductive WarnReply where
  | cannotWarnBots
  | cannotWarnYourself
  | cannotWarnAdministrators
  | warned (escalation : Option Nat)
deriving DecidableEq

/-- Escalation duration from `Moderation.warn`:
`min(5 * (warn_count // warn_threshold), 10080)` minutes. -/
def escalationDuration (warnCount warnThreshold : Nat) : Nat :=
  min (5 * (warnCount / warnThreshold)) 10080

/-- The `Moderation.warn` slash command: reject bots, self and
administrators without touching the table; otherwise insert the warning,
re-count the subject's warnings and time the subject out when the count is
a multiple of `warn_threshold`.  Returns the reply and the post state of
the table. -/
def warn (db : WarnDb) (moderatorId : Nat) (user : WarnTarget) (reason : String)
    (warnThreshold : Nat) : WarnReply × WarnDb :=
  if user.bot then (.cannotWarnBots, db)
  else if user.id == moderatorId then (.cannotWarnYourself, db)
  else if user.administrator then (.cannotWarnAdministrators, db)
  else
    let db' := insertWarn db user.id reason
    let warnCount := (selectWarnsByUser db' user.id).length
    if warnCount % warnThreshold == 0 then
      (.warned (some (escalationDuration warnCount warnThreshold)), db')
    else
      (.warned none, db')

/-! ## Audit log lookup (`lookup_audit_log` in `src/cogs/moderation.py`) -/

/-- Runtime type of an audit entry's `target` payload.  In the client
library a guild member object is not an instance of the plain user class,
so the two isinstance checks in the source distinguish them. -/
inductive AuditTargetKind where
  | user
  | member
  | other
deriving DecidableEq

/-- An audit log entry of the requested action kind; `entryId` is its
identity, `targetId` the id of the acted-on user. -/
structure AuditLogEntry where
  entryId : Nat
  targetKind : AuditTargetKind
  targetId : Nat
deriving DecidableEq

/-- Body of the `async for` scan: per entry, `assert isinstance(entry.target,
discord.User)` (an entry failing it is skipped by the inner `except`), then
compare ids and stop at the first match. -/
def auditScan (entries : List AuditLogEntry) (targetId : Nat) :
    Option AuditLogEntry :=
  entries.find? (fun e => e.targetKind == .user && e.targetId == targetId)

/-- `lookup_audit_log(guild, action, target, limit)`.  The trail argument is
the guild's audit entries of the requested action kind, most recent first;
`guild.audit_logs(limit=n, action=action)` yields `trail.take n`.  An empty
trail raises `StopAsyncIteration` from `anext`, caught: `None`.  A first
entry whose target is neither a user nor a member object fails the outer
assert, caught: `None`.  A first entry matching the target id is returned
immediately; otherwise the code iterates `guild.audit_logs(limit=limit)` —
starting again from the most recent entry — and returns the first match. -/
def lookup_audit_log (trail : List AuditLogEntry) (targetId : Nat)
    (limit : Nat) : Option AuditLogEntry :=
  match trail with
  | [] => none
  | first :: _ =>
    if first.targetKind == .user || first.targetKind == .member then
      if first.targetId != targetId then auditScan (trail.take limit) targetId
      else some first
    else none

/-- Modelled from the claim's wording, for comparison with
`lookup_audit_log`: fetch the single most recent entry and return it
immediately if its target matches; otherwise scan up to `search_limit`
further entries in reverse-chronological order for the first whose target
matches the user; `None` when exhausted or empty. -/
def find_actor_claim (trail : List AuditLogEntry) (targetId : Nat)
    (searchLimit : Nat) : Option AuditLogEntry :=
  match trail with
  | [] => none
  | first :: rest =>
    if first.targetId == targetId then some first
    else (rest.take searchLimit).find? (fun e => e.targetId == targetId)

/-! ## Message filters (`filter_ping` and `filter_caps`) -/

/-- What a per-message listener did. -/
inductive FilterAction where
  | skip
  | preserve
  | delete
deriving DecidableEq

/-- The data `filter_ping` reads from a message: the early-return guards,
the direct user mentions, the mentioned roles (mentionable flag plus member
ids), the broadcast flag and the guild's member list.  Users are their ids. -/
structure PingMessage where
  inGuild : Bool
  authorBot : Bool
  isSystem : Bool
  memberFound : Bool
  canMentionEveryone : Bool
  mentions : List Nat
  roleMentions : List (Bool × List Nat)
  mentionEveryone : Bool
  guildMembers : List Nat

/-- `pinged_users`: `set(message.mentions)`, extended with the members of
every mentionable mentioned role, extended with all guild members when
`message.mention_everyone` is set. -/
def pingedUsers (m : PingMessage) : Finset Nat :=
  let s := m.mentions.toFinset
  let s := m.roleMentions.foldl
    (fun acc r => if r.1 then acc ∪ r.2.toFinset else acc) s
  if m.mentionEveryone then s ∪ m.guildMembers.toFinset else s

/-- `Moderation.filter_ping`: early returns for non-guild messages, bots,
system messages, unknown members and senders holding `mention_everyone`;
otherwise delete exactly when `total_users` is not below `max_ping_count`. -/
def filter_ping (m : PingMessage) (maxPingCount : Nat) : FilterAction :=
  if m.inGuild = false then .skip
  else if m.authorBot || m.isSystem then .skip
  else if m.memberFound = false then .skip
  else if m.canMentionEveryone then .skip
  else if (pingedUsers m).card < maxPingCount then .preserve
  else .delete

/-- Guard conjunction under which `filter_ping` actually evaluates the
ping policy (guild message from a known, non-bot, non-system,
non-exempt member). -/
def pingEvaluated (m : PingMessage) : Prop :=
  m.inGuild = true ∧ m.authorBot = false ∧ m.isSystem = false ∧
  m.memberFound = true ∧ m.canMentionEveryone = false

/-- The data `filter_caps` reads from a message.  The body is its character
list; `Char.isUpper` stands in for Python's `str.isupper` (they agree on
ASCII). -/
structure CapsMessage where
  inGuild : Bool
  authorBot : Bool
  isSystem : Bool
  memberFound : Bool
  canManageMessages : Bool
  content : List Char

/-- `total_caps = sum(1 for c in message.content if c.isupper())`. -/
def totalCaps (content : List Char) : Nat :=
  (content.filter Char.isUpper).length

/-- `Moderation.filter_caps`: early returns for non-guild messages, bots,
system messages, unknown members and senders holding `manage_messages`;
otherwise delete exactly when the body is non-empty and
`total_caps / len(content) * 100 > max_caps_percent` (the Python
short-circuit `and` guards the division; the true division is modelled
exactly over ℚ). -/
def filter_caps (m : CapsMessage) (maxCapsPercent : ℚ) : FilterAction :=
  if m.inGuild = false then .skip
  else if m.authorBot || m.isSystem then .skip
  else if m.memberFound = false then .skip
  else if m.canManageMessages then .skip
  else if 0 < m.content.length ∧
      (totalCaps m.content : ℚ) / (m.content.length : ℚ) * 100 > maxCapsPercent
    then .delete
  else .preserve

/-- Guard conjunction under which `filter_caps` actually evaluates the caps
policy. -/
def capsEvaluated (m : CapsMessage) : Prop :=
  m.inGuild = true ∧ m.authorBot = false ∧ m.isSystem = false ∧
  m.memberFound = true ∧ m.canManageMessages = false

/-- A message that reaches the caps policy, with the given body. -/
def capsMsg (s : String) : CapsMessage :=
  ⟨true, false, false, true, false, s.toList⟩

/-! ## Ticket lifecycle (`src/cogs/tickets.py`) -/

/-- Python `str.strip(chars)`: remove leading and trailing characters that
occur in `chars`. -/
def pyStrip (chars : List Char) (s : List Char) : List Char :=
  ((s.dropWhile (fun c => decide (c ∈ chars))).reverse.dropWhile
    (fun c => decide (c ∈ chars))).reverse

/-- Python `int(s)` on the digit strings arising here: defined exactly when
`s` is a non-empty all-digit string, its decimal value; `int` raises
`ValueError` otherwise. -/
def pyInt (s : List Char) : Option Nat :=
  if s ≠ [] ∧ s.all Char.isDigit then
    some (s.foldl (fun a c => a * 10 + (c.toNat - 48)) 0)
  else none

/-- Decimal rendering of a non-negative int, as Python's `str`/f-string
produces it. -/
def natToChars (n : Nat) : List Char :=
  if n = 0 then ['0'] else ((Nat.digits 10 n).map Nat.digitChar).reverse

/-- `user.mention` is the string `<@{id}>`. -/
def mention (uid : Nat) : List Char :=
  '<' :: '@' :: (natToChars uid ++ ['>'])

/-- Status field text written by `claim_ticket`:
`f"Claimed by {interaction.user.mention}"`. -/
def claimedStatus (uid : Nat) : List Char :=
  "Claimed by ".toList ++ mention uid

/-- Status field text of a freshly created ticket. -/
def openStatus : List Char := "open".toList

/-- The character set in `status.split(" ")[-1].strip("<@!>")`. -/
def stripMentionChars : List Char := ['<', '@', '!', '>']

/-- The guild as the ticket handlers see it: the set of member ids and the
name resolution used by `get_member_named` (display-name/username text to
member id). -/
structure TGuild where
  members : List Nat
  names : List (List Char × Nat)

/-- `guild.get_member(uid)`: the member with that id, when present. -/
def get_member (g : TGuild) (uid : Nat) : Option Nat :=
  if uid ∈ g.members then some uid else none

/-- `guild.get_member_named(name)`: the first member whose name matches. -/
def get_member_named (g : TGuild) (name : List Char) : Option Nat :=
  (g.names.find? (fun p => p.1 == name)).map (fun p => p.2)

/-- The two embed fields the ticket control buttons read back:
`fields[1].value` (creator name) and `fields[2].value` (status text).
Either may be `None` in the client library's data model. -/
structure TicketMsg where
  createdBy : Option (List Char)
  status : Option (List Char)

/-- Outcome of `TicketControlButtons.claim_ticket`. -/
inductive ClaimResult where
  | errorContactAdmin
  | openerNotFound
  | cannotClaimOwn
  | claimed (newStatus : List Char)
deriving DecidableEq

/-- `TicketControlButtons.claim_ticket`: after the message/guild guards,
resolve the creator name from `fields[1]`; if the interacting user equals
the resolved member, reject ("You can't claim your own ticket."); otherwise
rewrite `fields[2]` to `Claimed by <mention>` and confirm. -/
def claim_ticket (message : Option TicketMsg) (guild : Option TGuild)
    (actorId : Nat) : ClaimResult :=
  match message with
  | none => .errorContactAdmin
  | some msg =>
    match guild with
    | none => .errorContactAdmin
    | some g =>
      match msg.createdBy with
      | none => .openerNotFound
      | some userName =>
        if get_member_named g userName = some actorId then .cannotClaimOwn
        else .claimed (claimedStatus actorId)

/-- Outcome of `TicketControlButtons.close_ticket`.  `closed dmSent n`
records whether the best-effort DM to the creator was sent and how many
times the ticket's channel was deleted. -/
inductive CloseResult where
  | errorContactAdmin
  | maliciousTicket
  | cannotCloseClaimedBy (claimantId : Nat)
  | notClaimedYet
  | closed (dmSent : Bool) (channelDeletions : Nat)
  | intError
deriving DecidableEq

/-- `TicketControlButtons.close_ticket`: read the status text from
`fields[2]` (`None` is normalised to `"open"`); on a non-open status parse
the claimant id out of `status.split(" ")[-1].strip("<@!>")` (an unparsable
id raises out of `int`), resolve it in the guild, reject when the resolved
claimant is missing or differs from the interacting user; otherwise DM the
creator when the name from `fields[1]` resolves, and delete the channel
when the interaction channel is a guild channel.  An open status is
answered with "The ticket isn't claimed yet.". -/
def close_ticket (message : Option TicketMsg) (guild : Option TGuild)
    (actorId : Nat) (isGuildChannel : Bool) : CloseResult :=
  match message with
  | none => .errorContactAdmin
  | some msg =>
    match guild with
    | none => .errorContactAdmin
    | some g =>
      let status := msg.status.getD openStatus
      if status ≠ openStatus then
        match pyInt (pyStrip stripMentionChars
            ((pySplit ' ' status).getLastD [])) with
        | none => .intError
        | some uid =>
          match get_member g uid with
          | none => .maliciousTicket
          | some u =>
            if u ≠ actorId then .cannotCloseClaimedBy u
            else
              let dmSent := (msg.createdBy.bind (get_member_named g)).isSome
              if isGuildChannel then .closed dmSent 1
              else .closed dmSent 0
      else .notClaimedYet

/-- Python `random.randrange(start, stop)`: the set of possible outcomes —
`start` inclusive, `stop` exclusive. -/
def pyRandrange (start stop : Nat) : Set Nat :=
  {n | start ≤ n ∧ n < stop}

/-- Ticket ids from `TicketButtons.create_ticket_button`:
`random.randrange(1000, 9999)`. -/
def create_ticket_id : Set Nat := pyRandrange 1000 9999

/-! ## Companion API (`src/api.py`) -/

/-- The established bot session (`BOT` after `set_bot`). -/
structure BotSession where
  latencyMs : Nat
deriving DecidableEq

/-- HTTP-level outcome of one request: a 200 with a body, a bare status
response, an `HTTPException`, or an `AssertionError` escaping the handler
(which the framework converts to a 500 Internal Server Error). -/
inductive ApiResult where
  | ok (body : String)
  | statusOnly (code : Nat)
  | httpError (code : Nat) (detail : String)
  | assertFailed
deriving DecidableEq

/-- `/latency`: `assert BOT != None; return BOT.latency`. -/
def latencyEndpoint : Option BotSession → ApiResult
  | none => .assertFailed
  | some b => .ok (toString b.latencyMs)

/-- `/bot-attribute`: walks `getattr` over `BOT`; with `BOT = None` the
first `getattr(None, attr)` raises `AttributeError` for the attribute
paths the web panel uses, answered with a 404. -/
def botAttributeEndpoint : Option BotSession → ApiResult
  | none => .httpError 404 "Attribute not found"
  | some _ => .ok "attribute"

/-- `/cogs`: `assert BOT`, then lists the cog files. -/
def cogsEndpoint : Option BotSession → ApiResult
  | none => .assertFailed
  | some _ => .ok "cogs"

/-- `/toggle_cog`: `assert BOT`, then loads or unloads the extension. -/
def toggleCogEndpoint : Option BotSession → ApiResult
  | none => .assertFailed
  | some _ => .ok "toggle_cog"

/-- `/logs`: reads the log file; never touches `BOT` (log file modelled as
present). -/
def logsEndpoint : Option BotSession → ApiResult
  | _ => .ok "logs"

/-- `/stop`: `assert BOT`, then closes everything and returns 200. -/
def stopEndpoint : Option BotSession → ApiResult
  | none => .assertFailed
  | some _ => .statusOnly 200

/-- `/heartbeat`: `return Response(status_code=200)`, no `BOT` access. -/
def heartbeatEndpoint : Option BotSession → ApiResult
  | _ => .statusOnly 200

/-- `@api.get(path)`: the framework's route decorator registers the
decorated function in the route table and returns that same function
unchanged; the pair is (returned function, registered route). -/
def api_get (path : String) (f : Option BotSession → ApiResult) :
    (Option BotSession → ApiResult) × (String × (Option BotSession → ApiResult)) :=
  (f, (path, f))

/-- `bot_check`: the wrapper raises `HTTPException(404, "Bot isn't set
yet.")` when `BOT` is unset and delegates otherwise. -/
def bot_check (f : Option BotSession → ApiResult) :
    Option BotSession → ApiResult :=
  fun bot =>
    match bot with
    | none => .httpError 404 "Bot isn't set yet."
    | some _ => f bot

/-- Decoration of each endpoint as written in the source —
`@bot_check` above `@api.get(path)` — so `api.get` runs first (registering
the undecorated function) and `bot_check` wraps its return value, which
only rebinds the module-level name. -/
def latencyRoute := api_get "/latency" latencyEndpoint

/-- Module-level name `latency` after both decorators. -/
def latency := bot_check latencyRoute.1

/-- Registration of `/bot-attribute`. -/
def botAttributeRoute := api_get "/bot-attribute" botAttributeEndpoint

/-- Registration of `/cogs`. -/
def cogsRoute := api_get "/cogs" cogsEndpoint

/-- Registration of `/toggle_cog`. -/
def toggleCogRoute := api_get "/toggle_cog" toggleCogEndpoint

/-- Registration of `/logs`. -/
def logsRoute := api_get "/logs" logsEndpoint

/-- Registration of `/stop`. -/
def stopRoute := api_get "/stop" stopEndpoint

/-- Registration of `/heartbeat`. -/
def heartbeatRoute := api_get "/heartbeat" heartbeatEndpoint

/-- The route table the framework dispatches against: it holds what
`api.get` registered. -/
def routes : List (String × (Option BotSession → ApiResult)) :=
  [latencyRoute.2, botAttributeRoute.2, cogsRoute.2, toggleCogRoute.2,
   logsRoute.2, stopRoute.2, heartbeatRoute.2]

/-- Serving an HTTP GET: look the path up in the route table and run the
registered handler against the current `BOT`. -/
def serve (path : String) (bot : Option BotSession) : ApiResult :=
  match routes.find? (fun r => r.1 == path) with
  | some r => r.2 bot
  | none => .httpError 404 "Not Found"

/-- Whether a result is an HTTP 404 failure. -/
def isHttp404 : ApiResult → Bool
  | .httpError 404 _ => true
  | _ => false

/-! ## Theorems (claims) -/

/-- C5: on an empty settings store, `get_or_create("a.b.c", 5)` returns 5 and
persists the nested structure `{a:{b:{c:5}}}` (the `updated_settings` flag is
set, so `save()` runs); a subsequent `get_or_create` of the same path with any
default — in particular any different one — still returns 5, leaves the store
unchanged, and does not save again. -/
theorem get_or_create_abc_idempotent :
    get_or_create [] "a.b.c" (some (.int 5)) = .ok (.int 5, abcStore, true) ∧
    ∀ d : JValue,
      get_or_create abcStore "a.b.c" (some d) = .ok (.int 5, abcStore, false) := by
  constructor
  · rfl
  · intro d
    rfl

/-- Inserting a warning for a user increments that user's count by one. -/
theorem selectWarns_insert_self (db : WarnDb) (uid : Nat) (reason : String) :
    (selectWarnsByUser (insertWarn db uid reason) uid).length =
      (selectWarnsByUser db uid).length + 1 := by
  simp [selectWarnsByUser, insertWarn, List.filter_append]

/-- C1: for every warning recorded by the warn command (positive threshold,
target not a bot, not the moderator, not an administrator), an escalation
timeout is applied if and only if the post-insert warning count of the
subject is a positive multiple of `warn_threshold`; when it is, the applied
duration is `min(5 * (count / warn_threshold), 10080)` minutes; and for a
fixed threshold that duration is monotonically non-decreasing in the
count. -/
theorem warn_escalation_correct (db : WarnDb) (moderatorId : Nat)
    (user : WarnTarget) (reason : String) (warnThreshold : Nat)
    (ht : 0 < warnThreshold) (hb : user.bot = false)
    (hs : user.id ≠ moderatorId) (ha : user.administrator = false) :
    ((∃ d, (warn db moderatorId user reason warnThreshold).1 = .warned (some d)) ↔
      ∃ k, 0 < k ∧
        (selectWarnsByUser (warn db moderatorId user reason warnThreshold).2 user.id).length =
          k * warnThreshold) ∧
    (∀ d, (warn db moderatorId user reason warnThreshold).1 = .warned (some d) →
      d = min (5 * ((selectWarnsByUser (warn db moderatorId user reason warnThreshold).2 user.id).length / warnThreshold)) 10080) ∧
    (∀ c₁ c₂ : Nat, c₁ ≤ c₂ →
      escalationDuration c₁ warnThreshold ≤ escalationDuration c₂ warnThreshold) := by
  have hne : (user.id == moderatorId) = false := by
    simp [hs]
  have hwarn : warn db moderatorId user reason warnThreshold =
      (if (selectWarnsByUser (insertWarn db user.id reason) user.id).length % warnThreshold = 0
       then (.warned (some (escalationDuration
               (selectWarnsByUser (insertWarn db user.id reason) user.id).length
               warnThreshold)),
             insertWarn db user.id reason)
       else (.warned none, insertWarn db user.id reason)) := by
    simp [warn, hb, ha, hne]
  have hpos : 0 < (selectWarnsByUser (insertWarn db user.id reason) user.id).length := by
    rw [selectWarns_insert_self]; omega
  refine ⟨?_, ?_, ?_⟩
  · rw [hwarn]
    by_cases h :
        (selectWarnsByUser (insertWarn db user.id reason) user.id).length % warnThreshold = 0
    · rw [if_pos h]
      constructor
      · intro _
        refine ⟨(selectWarnsByUser (insertWarn db user.id reason) user.id).length / warnThreshold,
          Nat.div_pos (Nat.le_of_dvd hpos (Nat.dvd_of_mod_eq_zero h)) ht, ?_⟩
        exact (Nat.div_mul_cancel (Nat.dvd_of_mod_eq_zero h)).symm
      · intro _
        exact ⟨escalationDuration
          (selectWarnsByUser (insertWarn db user.id reason) user.id).length warnThreshold, rfl⟩
    · rw [if_neg h]
      constructor
      · rintro ⟨d, hd⟩
        have hd' : WarnReply.warned none = WarnReply.warned (some d) := hd
        exact absurd (WarnReply.warned.inj hd') (by simp)
      · rintro ⟨k, hk, hkeq⟩
        exact absurd (by rw [hkeq]; exact Nat.mul_mod_left k warnThreshold) h
  · intro d hd
    rw [hwarn] at hd ⊢
    by_cases h :
        (selectWarnsByUser (insertWarn db user.id reason) user.id).length % warnThreshold = 0
    · rw [if_pos h] at hd ⊢
      have hd' : WarnReply.warned (some (escalationDuration
          (selectWarnsByUser (insertWarn db user.id reason) user.id).length warnThreshold)) =
          WarnReply.warned (some d) := hd
      exact (Option.some.inj (WarnReply.warned.inj hd')).symm
    · rw [if_neg h] at hd
      have hd' : WarnReply.warned none = WarnReply.warned (some d) := hd
      exact absurd (WarnReply.warned.inj hd') (by simp)
  · intro c₁ c₂ hc
    exact min_le_min (Nat.mul_le_mul_left 5 (Nat.div_le_div_right hc)) le_rfl

/-- Witness for C1: warning user 2 (threshold 1, empty ledger) escalates
with a 5-minute timeout. -/
theorem warn_escalation_correct_witness :
    (0 < 1) ∧
    ((⟨2, false, false⟩ : WarnTarget).bot = false) ∧
    ((⟨2, false, false⟩ : WarnTarget).id ≠ 1) ∧
    ((⟨2, false, false⟩ : WarnTarget).administrator = false) ∧
    (((∃ d, (warn ⟨[], 1⟩ 1 ⟨2, false, false⟩ "spam" 1).1 = .warned (some d)) ↔
      ∃ k, 0 < k ∧
        (selectWarnsByUser (warn ⟨[], 1⟩ 1 ⟨2, false, false⟩ "spam" 1).2 2).length = k * 1) ∧
    (∀ d, (warn ⟨[], 1⟩ 1 ⟨2, false, false⟩ "spam" 1).1 = .warned (some d) →
      d = min (5 * ((selectWarnsByUser (warn ⟨[], 1⟩ 1 ⟨2, false, false⟩ "spam" 1).2 2).length / 1)) 10080) ∧
    (∀ c₁ c₂ : Nat, c₁ ≤ c₂ → escalationDuration c₁ 1 ≤ escalationDuration c₂ 1)) :=
  ⟨by decide, rfl, by decide, rfl,
    warn_escalation_correct ⟨[], 1⟩ 1 ⟨2, false, false⟩ "spam" 1
      (by decide) rfl (by decide) rfl⟩

/-- C10: the warn command refuses to warn a bot account, the invoking
moderator themself, or a member with administrator permission: the reply is
one of the three rejection messages and the warns table is unchanged (no
insert happens). -/
theorem warn_rejects_protected (db : WarnDb) (moderatorId : Nat)
    (user : WarnTarget) (reason : String) (warnThreshold : Nat)
    (h : user.bot = true ∨ user.id = moderatorId ∨ user.administrator = true) :
    (warn db moderatorId user reason warnThreshold).2 = db ∧
    ((warn db moderatorId user reason warnThreshold).1 = .cannotWarnBots ∨
     (warn db moderatorId user reason warnThreshold).1 = .cannotWarnYourself ∨
     (warn db moderatorId user reason warnThreshold).1 = .cannotWarnAdministrators) := by
  by_cases hb : user.bot = true
  · simp [warn, hb]
  · by_cases hs : user.id = moderatorId
    · simp [warn, hb, hs]
    · have ha : user.administrator = true := by tauto
      simp [warn, hb, hs, ha]

/-- Witness for C10: warning a bot account leaves the table unchanged and
replies with a rejection. -/
theorem warn_rejects_protected_witness :
    ((⟨7, true, false⟩ : WarnTarget).bot = true ∨
      (⟨7, true, false⟩ : WarnTarget).id = 1 ∨
      (⟨7, true, false⟩ : WarnTarget).administrator = true) ∧
    ((warn ⟨[], 1⟩ 1 ⟨7, true, false⟩ "x" 5).2 = ⟨[], 1⟩ ∧
     ((warn ⟨[], 1⟩ 1 ⟨7, true, false⟩ "x" 5).1 = .cannotWarnBots ∨
      (warn ⟨[], 1⟩ 1 ⟨7, true, false⟩ "x" 5).1 = .cannotWarnYourself ∨
      (warn ⟨[], 1⟩ 1 ⟨7, true, false⟩ "x" 5).1 = .cannotWarnAdministrators)) :=
  ⟨Or.inl rfl, warn_rejects_protected ⟨[], 1⟩ 1 ⟨7, true, false⟩ "x" 5 (Or.inl rfl)⟩

/-- C2, counterexample: with audit trail `[target 1, target 1, target 2]`
(all plain users, most recent first) and `search_limit = 2`, the most
recent entry does not match target 2, and among the 2 further entries the
last one does match; the claim's algorithm returns it, but
`lookup_audit_log` rescans from the top (`audit_logs(limit=limit)`), never
reaches it, and returns `None`. -/
theorem lookup_audit_log_claim_counterexample :
    lookup_audit_log
        [⟨0, .user, 1⟩, ⟨1, .user, 1⟩, ⟨2, .user, 2⟩] 2 2 = none ∧
    find_actor_claim
        [⟨0, .user, 1⟩, ⟨1, .user, 1⟩, ⟨2, .user, 2⟩] 2 2 = some ⟨2, .user, 2⟩ := by
  constructor
  · rfl
  · rfl

/-- C2 amended: `lookup_audit_log` returns `None` on an empty trail without
raising; when the most recent entry of the requested kind has a user- or
member-typed target whose id matches, it is returned immediately with no
further scanning; when it does not match, the function re-scans from the
most recent entry up to `search_limit` entries in total (not `search_limit`
further entries) in reverse-chronological order and returns the first whose
target is a plain user object (member-typed targets are skipped by the
scan's isinstance assert) with a matching id, or `None`; a most recent
entry whose target is neither user- nor member-typed yields `None`. -/
theorem lookup_audit_log_amended :
    (∀ targetId limit : Nat, lookup_audit_log [] targetId limit = none) ∧
    (∀ (first : AuditLogEntry) (rest : List AuditLogEntry) (targetId limit : Nat),
      (first.targetKind = .user ∨ first.targetKind = .member) →
      first.targetId = targetId →
      lookup_audit_log (first :: rest) targetId limit = some first) ∧
    (∀ (first : AuditLogEntry) (rest : List AuditLogEntry) (targetId limit : Nat),
      (first.targetKind = .user ∨ first.targetKind = .member) →
      first.targetId ≠ targetId →
      lookup_audit_log (first :: rest) targetId limit =
        ((first :: rest).take limit).find?
          (fun e => e.targetKind == .user && e.targetId == targetId)) ∧
    (∀ (first : AuditLogEntry) (rest : List AuditLogEntry) (targetId limit : Nat),
      first.targetKind = .other →
      lookup_audit_log (first :: rest) targetId limit = none) := by
  refine ⟨fun _ _ => rfl, ?_, ?_, ?_⟩
  · intro first rest targetId limit hkind hmatch
    rcases hkind with hk | hk <;>
      simp [lookup_audit_log, hk, hmatch]
  · intro first rest targetId limit hkind hmiss
    rcases hkind with hk | hk <;>
      simp [lookup_audit_log, auditScan, hk, hmiss]
  · intro first rest targetId limit hkind
    simp [lookup_audit_log, hkind]

/-- Witness for C2's amended theorem: a one-entry trail whose most recent
entry already targets user 2 is returned immediately. -/
theorem lookup_audit_log_amended_witness :
    ((⟨0, .user, 2⟩ : AuditLogEntry).targetKind = .user ∨
      (⟨0, .user, 2⟩ : AuditLogEntry).targetKind = .member) ∧
    (⟨0, .user, 2⟩ : AuditLogEntry).targetId = 2 ∧
    lookup_audit_log [⟨0, .user, 2⟩] 2 10 = some ⟨0, .user, 2⟩ :=
  ⟨Or.inl rfl, rfl,
    lookup_audit_log_amended.2.1 ⟨0, .user, 2⟩ [] 2 10 (Or.inl rfl) rfl⟩

/-- C3: for every guild message from a known non-bot, non-system,
non-exempt member, the ping filter preserves a message whose set of
uniquely mentioned users has size exactly `max_ping_count - 1`
(expressed as `card + 1 = max_ping_count`), deletes one whose set has size
exactly `max_ping_count`, and in general deletes exactly when the size is
greater than or equal to `max_ping_count` (the boundary is inclusive on
the delete side). -/
theorem filter_ping_boundary (m : PingMessage) (maxPingCount : Nat)
    (hm : pingEvaluated m) :
    ((pingedUsers m).card + 1 = maxPingCount →
      filter_ping m maxPingCount = .preserve) ∧
    ((pingedUsers m).card = maxPingCount →
      filter_ping m maxPingCount = .delete) ∧
    (filter_ping m maxPingCount = .delete ↔
      maxPingCount ≤ (pingedUsers m).card) := by
  obtain ⟨h1, h2, h3, h4, h5⟩ := hm
  have hfp : filter_ping m maxPingCount =
      (if (pingedUsers m).card < maxPingCount then .preserve else .delete) := by
    simp [filter_ping, h1, h2, h3, h4, h5]
  rw [hfp]
  refine ⟨?_, ?_, ?_⟩
  · intro h
    rw [if_pos (by omega)]
  · intro h
    rw [if_neg (by omega)]
  · by_cases h : (pingedUsers m).card < maxPingCount
    · rw [if_pos h]
      constructor
      · intro habs
        exact absurd habs (by simp)
      · intro hle
        omega
    · rw [if_neg h]
      constructor
      · intro _
        omega
      · intro _
        rfl

/-- Witness for C3: a message mentioning users 1 and 2 against
`max_ping_count = 3` is preserved, against `2` it is deleted. -/
theorem filter_ping_boundary_witness :
    pingEvaluated ⟨true, false, false, true, false, [1, 2], [], false, []⟩ ∧
    ((pingedUsers ⟨true, false, false, true, false, [1, 2], [], false, []⟩).card + 1 = 3 →
      filter_ping ⟨true, false, false, true, false, [1, 2], [], false, []⟩ 3 = .preserve) ∧
    ((pingedUsers ⟨true, false, false, true, false, [1, 2], [], false, []⟩).card = 3 →
      filter_ping ⟨true, false, false, true, false, [1, 2], [], false, []⟩ 3 = .delete) ∧
    (filter_ping ⟨true, false, false, true, false, [1, 2], [], false, []⟩ 3 = .delete ↔
      3 ≤ (pingedUsers ⟨true, false, false, true, false, [1, 2], [], false, []⟩).card) :=
  ⟨⟨rfl, rfl, rfl, rfl, rfl⟩,
    filter_ping_boundary ⟨true, false, false, true, false, [1, 2], [], false, []⟩ 3
      ⟨rfl, rfl, rfl, rfl, rfl⟩⟩

/-- C4: for every guild message from a known non-bot, non-system,
non-exempt member, the caps filter deletes exactly when the body is
non-empty and `uppercase_count / total_count * 100` exceeds
`max_caps_percent`; the body "ABC" is deleted against
`max_caps_percent = 99`, the body "abc" is preserved against every
non-negative percentage, and an empty body is never evaluated (the
division is guarded by the length check, so no division by zero
occurs and the message is preserved). -/
theorem filter_caps_correct :
    (∀ (m : CapsMessage) (p : ℚ), capsEvaluated m →
      (filter_caps m p = .delete ↔
        0 < m.content.length ∧
          (totalCaps m.content : ℚ) / (m.content.length : ℚ) * 100 > p)) ∧
    filter_caps (capsMsg "ABC") 99 = .delete ∧
    (∀ p : ℚ, 0 ≤ p → filter_caps (capsMsg "abc") p = .preserve) ∧
    (∀ (m : CapsMessage) (p : ℚ), capsEvaluated m → m.content = [] →
      filter_caps m p = .preserve) := by
  have hiff : ∀ (m : CapsMessage) (p : ℚ), capsEvaluated m →
      (filter_caps m p = .delete ↔
        0 < m.content.length ∧
          (totalCaps m.content : ℚ) / (m.content.length : ℚ) * 100 > p) := by
    intro m p hm
    obtain ⟨h1, h2, h3, h4, h5⟩ := hm
    have hfc : filter_caps m p =
        (if 0 < m.content.length ∧
            (totalCaps m.content : ℚ) / (m.content.length : ℚ) * 100 > p
         then .delete else .preserve) := by
      simp [filter_caps, h1, h2, h3, h4, h5]
    rw [hfc]
    by_cases h : 0 < m.content.length ∧
        (totalCaps m.content : ℚ) / (m.content.length : ℚ) * 100 > p
    · rw [if_pos h]
      simp [h]
    · rw [if_neg h]
      constructor
      · intro habs
        exact absurd habs (by simp)
      · intro hc
        exact absurd hc h
  refine ⟨hiff, ?_, ?_, ?_⟩
  · rw [hiff (capsMsg "ABC") 99 ⟨rfl, rfl, rfl, rfl, rfl⟩]
    refine ⟨by decide, ?_⟩
    have h3 : totalCaps (capsMsg "ABC").content = 3 := rfl
    have hl : (capsMsg "ABC").content.length = 3 := rfl
    rw [h3, hl]
    norm_num
  · intro p hp
    have hfc : filter_caps (capsMsg "abc") p =
        (if 0 < ("abc".toList).length ∧
            (totalCaps "abc".toList : ℚ) / (("abc".toList).length : ℚ) * 100 > p
         then .delete else .preserve) := by
      simp [filter_caps, capsMsg]
    rw [hfc, if_neg]
    rintro ⟨-, hgt⟩
    have h0 : totalCaps "abc".toList = 0 := rfl
    have hl : ("abc".toList).length = 3 := rfl
    rw [h0, hl] at hgt
    norm_num at hgt
    exact absurd hgt (not_lt.mpr hp)
  · intro m p hm hempty
    obtain ⟨h1, h2, h3, h4, h5⟩ := hm
    simp [filter_caps, h1, h2, h3, h4, h5, hempty]

/-- Witness for C4: the message body "Hi" (one of two characters upper
case, i.e. 50%) against `max_caps_percent = 30` is deleted. -/
theorem filter_caps_correct_witness :
    capsEvaluated (capsMsg "Hi") ∧
    (filter_caps (capsMsg "Hi") 30 = .delete ↔
      0 < (capsMsg "Hi").content.length ∧
        (totalCaps (capsMsg "Hi").content : ℚ) /
          ((capsMsg "Hi").content.length : ℚ) * 100 > 30) :=
  ⟨⟨rfl, rfl, rfl, rfl, rfl⟩,
    filter_caps_correct.1 (capsMsg "Hi") 30 ⟨rfl, rfl, rfl, rfl, rfl⟩⟩

/-- A decimal digit rendered by `Nat.digitChar` is a digit character and
decodes back via `toNat - 48`. -/
theorem digitChar_spec (d : Nat) (hd : d < 10) :
    (Nat.digitChar d).isDigit = true ∧ (Nat.digitChar d).toNat - 48 = d := by
  interval_cases d <;> exact ⟨rfl, rfl⟩

/-- The decimal rendering of a natural number is a non-empty all-digit
string. -/
theorem natToChars_spec (n : Nat) :
    natToChars n ≠ [] ∧ ∀ c ∈ natToChars n, c.isDigit = true := by
  unfold natToChars
  by_cases h : n = 0
  · rw [if_pos h]
    exact ⟨by simp, by intro c hc; simp at hc; subst hc; rfl⟩
  · rw [if_neg h]
    constructor
    · simp [Nat.digits_ne_nil_iff_ne_zero, h]
    · intro c hc
      rw [List.mem_reverse, List.mem_map] at hc
      obtain ⟨d, hd, rfl⟩ := hc
      exact (digitChar_spec d (Nat.digits_lt_base (by norm_num) hd)).1

/-- Folding the decimal-digit decoder over a rendered digit list recovers
the little-endian value. -/
theorem foldl_digitChar (l : List Nat) (hl : ∀ d ∈ l, d < 10) :
    ((l.map Nat.digitChar).reverse).foldl (fun a c => a * 10 + (c.toNat - 48)) 0 =
      Nat.ofDigits 10 l := by
  induction l with
  | nil => simp [Nat.ofDigits]
  | cons d t ih =>
    rw [List.map_cons, List.reverse_cons, List.foldl_append]
    rw [ih (fun x hx => hl x (List.mem_cons_of_mem _ hx))]
    have hd := (digitChar_spec d (hl d (List.mem_cons_self _ _))).2
    simp only [List.foldl_cons, List.foldl_nil, hd, Nat.ofDigits_cons]
    ring

/-- Parsing the decimal rendering of `n` with `int` gives back `n`. -/
theorem pyInt_natToChars (n : Nat) : pyInt (natToChars n) = some n := by
  obtain ⟨hne, hdig⟩ := natToChars_spec n
  unfold pyInt
  rw [if_pos ⟨hne, by rw [List.all_eq_true]; intro c hc; exact hdig c hc⟩]
  congr 1
  by_cases h : n = 0
  · subst h; rfl
  · unfold natToChars
    rw [if_neg h]
    rw [foldl_digitChar _ (fun d hd => Nat.digits_lt_base (by norm_num) hd)]
    exact Nat.ofDigits_digits 10 n

/-- A digit character is not one of the mention punctuation characters. -/
theorem isDigit_not_strip (c : Char) (h : c.isDigit = true) :
    decide (c ∈ stripMentionChars) = false := by
  have hmem : c ∉ stripMentionChars := by
    intro hmem
    have : c = '<' ∨ c = '@' ∨ c = '!' ∨ c = '>' := by
      simpa [stripMentionChars] using hmem
    rcases this with rfl | rfl | rfl | rfl <;> simp at h
  simpa using hmem

/-- Dropping strip characters from an all-digit list is the identity. -/
theorem dropWhile_strip_digits (l : List Char) (hl : ∀ c ∈ l, c.isDigit = true) :
    l.dropWhile (fun c => decide (c ∈ stripMentionChars)) = l := by
  cases l with
  | nil => rfl
  | cons c cs =>
    have hc := isDigit_not_strip c (hl c (List.mem_cons_self _ _))
    simp [List.dropWhile_cons, hc]

/-- `"<@{id}>".strip("<@!>")` leaves exactly the decimal digits. -/
theorem pyStrip_mention (uid : Nat) :
    pyStrip stripMentionChars (mention uid) = natToChars uid := by
  obtain ⟨hne, hdig⟩ := natToChars_spec uid
  obtain ⟨c, cs, hccs⟩ := List.exists_cons_of_ne_nil hne
  have hcd : decide (c ∈ stripMentionChars) = false :=
    isDigit_not_strip c (by rw [hccs] at hdig; exact hdig c (List.mem_cons_self _ _))
  unfold pyStrip mention
  have hlt : ('<' :: '@' :: (natToChars uid ++ ['>'])).dropWhile
      (fun x => decide (x ∈ stripMentionChars)) = natToChars uid ++ ['>'] := by
    rw [List.dropWhile_cons, if_pos (by decide), List.dropWhile_cons,
      if_pos (by decide), hccs, List.cons_append, List.dropWhile_cons,
      if_neg (by simp [hcd])]
  rw [hlt, List.reverse_append]
  have hrev : ((natToChars uid).reverse).dropWhile
      (fun x => decide (x ∈ stripMentionChars)) = (natToChars uid).reverse := by
    apply dropWhile_strip_digits
    intro x hx
    exact hdig x (List.mem_reverse.mp hx)
  have hsingle : (['>'].reverse ++ (natToChars uid).reverse) =
      '>' :: (natToChars uid).reverse := by simp
  rw [hsingle, List.dropWhile_cons, if_pos (by decide), hrev,
    List.reverse_reverse]

/-- Unfolding of `pySplit` on a cons cell. -/
theorem pySplit_cons (sep c : Char) (rest : List Char) :
    pySplit sep (c :: rest) =
      match pySplit sep rest with
      | [] => [[]]
      | cur :: parts =>
        if c == sep then [] :: cur :: parts else (c :: cur) :: parts := rfl

/-- `str.split` never returns an empty list. -/
theorem pySplit_ne_nil (sep : Char) (l : List Char) : pySplit sep l ≠ [] := by
  cases l with
  | nil => simp [pySplit]
  | cons c rest =>
    rcases hsplit : pySplit sep rest with _ | ⟨cur, parts⟩
    · simp [pySplit_cons, hsplit]
    · simp only [pySplit_cons, hsplit]
      split <;> simp

/-- A list without the separator splits into a single component. -/
theorem pySplit_no_sep (sep : Char) (l : List Char)
    (h : ∀ c ∈ l, (c == sep) = false) : pySplit sep l = [l] := by
  induction l with
  | nil => rfl
  | cons c cs ih =>
    have hc := h c (List.mem_cons_self _ _)
    simp only [pySplit_cons, ih (fun x hx => h x (List.mem_cons_of_mem _ hx)), hc]
    simp

/-- A list containing the separator splits into at least two components. -/
theorem pySplit_length_two (sep : Char) (pre l : List Char) :
    2 ≤ (pySplit sep (pre ++ sep :: l)).length := by
  induction pre with
  | nil =>
    rw [List.nil_append]
    rcases hsplit : pySplit sep l with _ | ⟨cur, parts⟩
    · exact absurd hsplit (pySplit_ne_nil sep l)
    · simp [pySplit_cons, hsplit]
  | cons c cs ih =>
    rw [List.cons_append]
    rcases hsplit : pySplit sep (cs ++ sep :: l) with _ | ⟨cur, parts⟩
    · exact absurd hsplit (pySplit_ne_nil sep _)
    · rw [hsplit] at ih
      simp only [List.length_cons] at ih
      simp only [pySplit_cons, hsplit]
      split
      · simp
      · simp only [List.length_cons]
        omega

/-- The last component of a split is the text after the final separator,
here specialised to a suffix free of the separator. -/
theorem pySplit_getLast_append (sep : Char) (pre l : List Char)
    (h : ∀ c ∈ l, (c == sep) = false) :
    (pySplit sep (pre ++ sep :: l)).getLastD [] = l := by
  induction pre with
  | nil =>
    rw [List.nil_append]
    have hsl : pySplit sep (sep :: l) = [] :: [l] := by
      simp [pySplit_cons, pySplit_no_sep sep l h]
    rw [hsl]
    rfl
  | cons c cs ih =>
    rw [List.cons_append]
    rcases hsplit : pySplit sep (cs ++ sep :: l) with _ | ⟨cur, parts⟩
    · exact absurd hsplit (pySplit_ne_nil sep _)
    · have hlen := pySplit_length_two sep cs l
      rw [hsplit] at hlen
      rw [hsplit] at ih
      simp only [pySplit_cons, hsplit]
      rcases parts with _ | ⟨p, ps⟩
      · simp at hlen
      · by_cases hceq : (c == sep) = true
        · rw [if_pos hceq]
          simpa [List.getLastD_cons] using ih
        · rw [if_neg hceq]
          simpa [List.getLastD_cons] using ih

/-- No character of a rendered mention is a space. -/
theorem mention_no_space (uid : Nat) :
    ∀ c ∈ mention uid, (c == ' ') = false := by
  intro c hc
  unfold mention at hc
  rcases hc with _ | ⟨_, hc⟩
  · rfl
  rcases hc with _ | ⟨_, hc⟩
  · rfl
  have hc' : c ∈ natToChars uid ++ ['>'] := hc
  rw [List.mem_append] at hc'
  rcases hc' with hc | hc
  · have hd := (natToChars_spec uid).2 c hc
    by_contra habs
    rw [Bool.not_eq_false, beq_iff_eq] at habs
    subst habs
    simp at hd
  · simp at hc
    subst hc
    rfl

/-- The last space-separated token of `Claimed by <@{id}>` is the
mention. -/
theorem pyLast_claimedStatus (uid : Nat) :
    (pySplit ' ' (claimedStatus uid)).getLastD [] = mention uid := by
  have hdecomp : claimedStatus uid = "Claimed by".toList ++ ' ' :: mention uid := by
    unfold claimedStatus
    rfl
  rw [hdecomp]
  exact pySplit_getLast_append ' ' "Claimed by".toList (mention uid)
    (mention_no_space uid)

/-- Parsing the claimant id back out of the rendered status text:
`int(status.split(" ")[-1].strip("<@!>"))` recovers the id. -/
theorem parse_claimant (uid : Nat) :
    pyInt (pyStrip stripMentionChars
      ((pySplit ' ' (claimedStatus uid)).getLastD [])) = some uid := by
  rw [pyLast_claimedStatus, pyStrip_mention, pyInt_natToChars]

/-- A claimed status text is never the literal `open`. -/
theorem claimedStatus_ne_open (uid : Nat) : claimedStatus uid ≠ openStatus := by
  intro h
  have h' : 'C' :: ("laimed by ".toList ++ mention uid) = 'o' :: "pen".toList := h
  exact absurd (List.cons.inj h').1 (by decide)

/-- C6: for every ticket message, a close attempt on an open ticket is
rejected with the "not claimed yet" message; a close attempt by an actor
other than the claimant is rejected (with the claimed-by message when the
claimant is still in the guild, with the malformed-ticket message when not
— in neither case is the channel deleted); and a close by the claimant
sends the best-effort DM to the creator exactly when the creator name from
the embed still resolves in the guild, and deletes the ticket's channel
exactly once. -/
theorem close_ticket_lifecycle (msg : TicketMsg) (g : TGuild) (actorId : Nat)
    (isGuildChannel : Bool) :
    ((msg.status = some openStatus ∨ msg.status = none) →
      close_ticket (some msg) (some g) actorId isGuildChannel = .notClaimedYet) ∧
    (∀ claimantId, msg.status = some (claimedStatus claimantId) →
      claimantId ≠ actorId →
      close_ticket (some msg) (some g) actorId isGuildChannel =
        (if claimantId ∈ g.members then .cannotCloseClaimedBy claimantId
         else .maliciousTicket)) ∧
    (∀ claimantId, msg.status = some (claimedStatus claimantId) →
      claimantId = actorId → actorId ∈ g.members → isGuildChannel = true →
      close_ticket (some msg) (some g) actorId isGuildChannel =
        .closed ((msg.createdBy.bind (get_member_named g)).isSome) 1) := by
  refine ⟨?_, ?_, ?_⟩
  · intro hopen
    rcases hopen with hopen | hopen <;>
      simp [close_ticket, hopen]
  · intro claimantId hstat hne
    by_cases hmem : claimantId ∈ g.members
    · simp only [close_ticket, hstat, Option.getD_some]
      rw [if_pos (claimedStatus_ne_open claimantId), parse_claimant]
      simp [get_member, hmem, hne]
    · simp only [close_ticket, hstat, Option.getD_some]
      rw [if_pos (claimedStatus_ne_open claimantId), parse_claimant]
      simp [get_member, hmem]
  · intro claimantId hstat heq hmem hch
    subst heq
    simp only [close_ticket, hstat, Option.getD_some]
    rw [if_pos (claimedStatus_ne_open claimantId), parse_claimant]
    simp [get_member, hmem, hch]

/-- Witness for C6: the claimant (member 5) closes a ticket claimed by
member 5 and created by "alice" (who resolves to member 3): the DM is sent
and the channel deleted once. -/
theorem close_ticket_lifecycle_witness :
    (TicketMsg.mk (some "alice".toList) (some (claimedStatus 5))).status =
      some (claimedStatus 5) ∧
    (5 : Nat) = 5 ∧
    (5 : Nat) ∈ (TGuild.mk [5] [("alice".toList, 3)]).members ∧
    true = true ∧
    close_ticket (some (TicketMsg.mk (some "alice".toList) (some (claimedStatus 5))))
        (some (TGuild.mk [5] [("alice".toList, 3)])) 5 true =
      .closed (((TicketMsg.mk (some "alice".toList) (some (claimedStatus 5))).createdBy.bind
        (get_member_named (TGuild.mk [5] [("alice".toList, 3)]))).isSome) 1 :=
  ⟨rfl, rfl, by simp, rfl,
    (close_ticket_lifecycle
        (TicketMsg.mk (some "alice".toList) (some (claimedStatus 5)))
        (TGuild.mk [5] [("alice".toList, 3)]) 5 true).2.2
      5 rfl rfl (by simp) rfl⟩

/-- C7: a claim attempt by the ticket's creator — the actor the stored
creator name resolves to — is rejected with no state transition, and a
claim attempt by any other actor transitions the ticket to
`Claimed by <mention of the actor>`; so the claimed state is reached from
open only via a non-creator actor. -/
theorem claim_ticket_creator_rejected (msg : TicketMsg) (g : TGuild)
    (actorId : Nat) (name : List Char) (hname : msg.createdBy = some name) :
    (get_member_named g name = some actorId →
      claim_ticket (some msg) (some g) actorId = .cannotClaimOwn) ∧
    (get_member_named g name ≠ some actorId →
      claim_ticket (some msg) (some g) actorId =
        .claimed (claimedStatus actorId)) := by
  constructor
  · intro hres
    simp [claim_ticket, hname, hres]
  · intro hres
    simp [claim_ticket, hname, hres]

/-- Witness for C7: member 9, who created the ticket as "bob", cannot
claim it. -/
theorem claim_ticket_creator_rejected_witness :
    (TicketMsg.mk (some "bob".toList) (some openStatus)).createdBy =
      some "bob".toList ∧
    get_member_named (TGuild.mk [9] [("bob".toList, 9)]) "bob".toList = some 9 ∧
    claim_ticket (some (TicketMsg.mk (some "bob".toList) (some openStatus)))
        (some (TGuild.mk [9] [("bob".toList, 9)])) 9 = .cannotClaimOwn :=
  ⟨rfl, rfl,
    (claim_ticket_creator_rejected
        (TicketMsg.mk (some "bob".toList) (some openStatus))
        (TGuild.mk [9] [("bob".toList, 9)]) 9 "bob".toList rfl).1 rfl⟩

/-- C9, counterexample: 9999 lies in the range 1000–9999 the claim
promises, but it is not a possible outcome of
`random.randrange(1000, 9999)` — the upper bound of `randrange` is
exclusive. -/
theorem create_ticket_id_counterexample :
    ((1000 : Nat) ≤ 9999 ∧ (9999 : Nat) ≤ 9999) ∧ 9999 ∉ create_ticket_id := by
  refine ⟨⟨by norm_num, le_refl 9999⟩, ?_⟩
  intro h
  have h2 := h.2
  simp at h2

/-- C9 amended: every ticket id produced by the create-ticket action lies
in the range 1000 to 9998 inclusive, and every value of that range is a
possible outcome. -/
theorem create_ticket_id_range (n : Nat) :
    n ∈ create_ticket_id ↔ 1000 ≤ n ∧ n ≤ 9998 := by
  unfold create_ticket_id pyRandrange
  simp only [Set.mem_setOf_eq]
  omega

/-- C8, counterexample: with the bot session not yet established, the
`/latency` route does not fail with HTTP 404 — the registered handler is
the undecorated endpoint (the `@bot_check` wrapper is applied above
`@api.get`, which has already registered the inner function), so the
request dies on `assert BOT != None` instead (HTTP 500). -/
theorem api_latency_not_404_counterexample :
    isHttp404 (serve "/latency" none) = false ∧
    serve "/latency" none = .assertFailed :=
  ⟨rfl, rfl⟩

/-- C8 amended: because `@bot_check` sits above `@api.get(...)` on every
endpooint, the route table holds the unwrapped handlers and no route
performs the bot-availability 404 check.  With the bot session unset,
`/latency`, `/cogs`, `/toggle_cog` and `/stop` fail their internal
`assert BOT` (HTTP 500), `/bot-attribute` returns 404 only because
attribute traversal over the unset instance fails, `/logs` serves the log
file normally, and `/heartbeat` returns 200; the `bot_check` wrapper
itself would answer 404, but it is reachable only through the rebound
module-level name, never through the route table. -/
theorem api_routes_with_bot_unset :
    serve "/latency" none = .assertFailed ∧
    serve "/bot-attribute" none = .httpError 404 "Attribute not found" ∧
    serve "/cogs" none = .assertFailed ∧
    serve "/toggle_cog" none = .assertFailed ∧
    serve "/logs" none = .ok "logs" ∧
    serve "/stop" none = .assertFailed ∧
    serve "/heartbeat" none = .statusOnly 200 ∧
    bot_check latencyEndpoint none = .httpError 404 "Bot isn't set yet." :=
  ⟨rfl, rfl, rfl, rfl, rfl, rfl, rfl, rfl⟩
